import Mathlib

/-!
# Verification of the cs-mattermost-spotify-plugin status subsystem

A shallow embedding of the plugin's identity-mapping store, token store,
status cache, context-name cache and status resolver, translated from the
Go sources (`server/plugin.go`, `server/api.go` and the accompanying
kvstore implementations), together with theorems settling the claims about
them.

The repository contains two generations of the same component:

* the *current* generation: the `kvstore.Impl` built on the `PluginAPI`
  interface (configurable status-cache TTL, `StoreCacheStatus`,
  `GetCachedStatus` returning a defined "absent" result) together with
  the `handleStatus`/`fetchStatus` resolver that fetches and caches on a
  cache miss;
* the *older* generation: the `kvstore.Impl` built directly on
  `pluginapi.Client` (30-second status cache, `CacheStatus`, lookups that
  fail on absence) together with the `handleMe`/`handleSpotify`/read-only
  `handleStatus` handlers.

Definitions for the older generation carry an `Old` suffix.
-/

namespace SpotifyPlugin

/-- `kvstore.Status` (kvstore.go): the cached, display-ready playback status. -/
structure Status where
  IsConnected : Bool
  IsPlaying : Bool
  PlaybackType : String
  PlaybackURL : String
  PlaybackName : String
deriving DecidableEq

/-- `oauth2.Token` as used by the plugin: access token, refresh token and
expiry. The expiry is in seconds (Go `time.Time` compared via `time.Until`). -/
structure Token where
  AccessToken : String
  RefreshToken : String
  Expiry : Int
deriving DecidableEq

/-- The marshalled bytes of a `Token`, standing in for `json.Marshal`. -/
def tokenBytes (t : Token) : String :=
  "token(" ++ t.AccessToken ++ "," ++ t.RefreshToken ++ "," ++ toString t.Expiry ++ ")"

/-- The marshalled bytes of a `Status`, standing in for `json.Marshal`. -/
def statusBytes (s : Status) : String :=
  "status(" ++ toString s.IsConnected ++ "," ++ toString s.IsPlaying ++ "," ++
    s.PlaybackType ++ "," ++ s.PlaybackURL ++ "," ++ s.PlaybackName ++ ")"

/-- A value stored in the Mattermost KV store. The Go store holds raw bytes;
we keep the structure of what was marshalled so that `json.Unmarshal` can be
modelled by matching on the constructor (non-matching bytes fail to
unmarshal, exactly as arbitrary bytes fail `json.Unmarshal` into the target
struct). -/
inductive Val where
  | str : String → Val
  | tok : Token → Val
  | stat : Status → Val
deriving DecidableEq

/-- The byte content of a stored value, as seen by code that reads the raw
bytes back as a Go string (`string(bytes)`). -/
def Val.asString : Val → String
  | .str s => s
  | .tok t => tokenBytes t
  | .stat s => statusBytes s

/-- The plugin KV store (§6 `KeyValueStore` contract): per-key set/get/delete
where absence is distinguishable from error. Modelled as an association
list; the most recent write for a key is the first matching entry. -/
def KV : Type := List (String × Val)

instance : DecidableEq KV := by unfold KV; infer_instance

/-- `KVSet`: store a value under a key (overwrite semantics). -/
def kvSet (kv : KV) (key : String) (v : Val) : KV :=
  (key, v) :: kv

/-- `KVGet`: read a key; `none` models an absent key (Go `nil` bytes). -/
def kvGet (kv : KV) (key : String) : Option Val :=
  (List.find? (fun p => p.1 = key) kv).map Prod.snd

/-- `KVDelete`: remove every entry stored under a key. -/
def kvDelete (kv : KV) (key : String) : KV :=
  List.filter (fun p => ¬ p.1 = key) kv

@[simp] theorem kvGet_set_same (kv : KV) (k : String) (v : Val) :
    kvGet (kvSet kv k v) k = some v := by
  simp [kvGet, kvSet, List.find?]

@[simp] theorem kvGet_set_other (kv : KV) (k k' : String) (v : Val) (h : k' ≠ k) :
    kvGet (kvSet kv k v) k' = kvGet kv k' := by
  unfold kvGet kvSet
  rw [List.find?_cons_of_neg]
  simpa using fun hc => h (Eq.symm hc)

@[simp] theorem kvGet_delete_same (kv : KV) (k : String) :
    kvGet (kvDelete kv k) k = none := by
  unfold kvGet kvDelete
  induction kv with
  | nil => rfl
  | cons p t ih =>
    by_cases hp : p.1 = k
    · rw [List.filter_cons_of_neg]
      · exact ih
      · simpa using hp
    · rw [List.filter_cons_of_pos, List.find?_cons_of_neg]
      · exact ih
      · simpa using hp
      · simpa using hp

@[simp] theorem kvGet_delete_other (kv : KV) (k k' : String) (h : k' ≠ k) :
    kvGet (kvDelete kv k) k' = kvGet kv k' := by
  unfold kvGet kvDelete
  induction kv with
  | nil => rfl
  | cons p t ih =>
    by_cases hp : p.1 = k
    · have hpk' : ¬ p.1 = k' := by rw [hp]; exact fun hc => h hc.symm
      rw [List.filter_cons_of_neg, List.find?_cons_of_neg]
      · exact ih
      · simpa using hpk'
      · simpa using hp
    · rw [List.filter_cons_of_pos]
      · by_cases hq : p.1 = k'
        · rw [List.find?_cons_of_pos, List.find?_cons_of_pos]
          · exact decide_eq_true hq
          · exact decide_eq_true hq
        · rw [List.find?_cons_of_neg, List.find?_cons_of_neg]
          · exact ih
          · simpa using hq
          · simpa using hq
      · simpa using hp

/-- `errors.Wrap(err, msg)` on a non-nil error: the wrapped message text. -/
def wrapErr (msg e : String) : String :=
  msg ++ ": " ++ e

/-! ## kvstore, current generation (`Impl` over `PluginAPI`)

`StoreUserEmail`, `GetUserIDByEmail`, `GetEmailByUserID` and
`ClearUserData` are textually identical in both generations, so they are
defined once here. Reads of the KV store itself are modelled as
infallible (the §6 contract distinguishes absence from error; store-level
read errors are not needed by any claim), so the `err != nil` guards on
`KVGet` results never fire in the model. -/

/-- `StoreUserEmail` (kvstore_impl.go): writes `email-{email} → userID`
and `uid-{userID} → email`, in that order. -/
def StoreUserEmail (kv : KV) (userID email : String) : KV :=
  kvSet (kvSet kv ("email-" ++ email) (.str userID)) ("uid-" ++ userID) (.str email)

/-- `GetUserIDByEmail`: absent key yields the error
`"no user ID found for email"`; stored bytes are returned as a string. -/
def GetUserIDByEmail (kv : KV) (email : String) : Except String String :=
  match kvGet kv ("email-" ++ email) with
  | none => .error "no user ID found for email"
  | some v => .ok v.asString

/-- `GetEmailByUserID`: absent key yields the error
`"no email found for user ID"`. -/
def GetEmailByUserID (kv : KV) (userID : String) : Except String String :=
  match kvGet kv ("uid-" ++ userID) with
  | none => .error "no email found for user ID"
  | some v => .ok v.asString

/-- `StoreToken`: marshals and stores the token under `token-{userID}`.
The Go nil-token guard is unrepresentable here (a `Token` value is never
nil), and the store write is modelled as succeeding; write failure is
injected at the call sites that handle it. -/
def StoreToken (kv : KV) (userID : String) (t : Token) : KV :=
  kvSet kv ("token-" ++ userID) (.tok t)

/-- `GetToken` (current kvstore): an absent key gives `(nil, nil)` — Go
returns `errors.Wrap(nil, ...)`, which is `nil`; empty stored bytes give
`(nil, nil)` via the `len(tokenJSON) == 0` check; other bytes must
unmarshal into a token. -/
def GetToken (kv : KV) (userID : String) : Except String (Option Token) :=
  match kvGet kv ("token-" ++ userID) with
  | none => .ok none
  | some v =>
    if v.asString.isEmpty then .ok none
    else
      match v with
      | .tok t => .ok (some t)
      | _ => .error "failed to unmarshal token"

/-- `StoreCacheStatus` (current kvstore): a nil status *deletes* the
cached-status key; a non-nil status is stored under it (with the
configured TTL, which the claims do not observe). -/
def StoreCacheStatus (kv : KV) (userID : String) (status : Option Status) : KV :=
  match status with
  | none => kvDelete kv ("cached-status-" ++ userID)
  | some s => kvSet kv ("cached-status-" ++ userID) (.stat s)

/-- `GetCachedStatus` (current kvstore): absence and empty bytes give
`(nil, nil)`; other bytes must unmarshal into a status. -/
def GetCachedStatus (kv : KV) (userID : String) : Except String (Option Status) :=
  match kvGet kv ("cached-status-" ++ userID) with
  | none => .ok none
  | some v =>
    if v.asString.isEmpty then .ok none
    else
      match v with
      | .stat s => .ok (some s)
      | _ => .error "failed to unmarshal status"

/-- `ClearUserData` (both kvstore generations): reads the email mapped to
the user and, when that read succeeds with a non-empty email, deletes the
`email-` key; then deletes the `uid-`, `token-` and `cached-status-` keys. -/
def ClearUserData (kv : KV) (userID : String) : KV :=
  let kv1 :=
    match GetEmailByUserID kv userID with
    | .ok email => if email ≠ "" then kvDelete kv ("email-" ++ email) else kv
    | .error _ => kv
  kvDelete (kvDelete (kvDelete kv1 ("uid-" ++ userID)) ("token-" ++ userID))
    ("cached-status-" ++ userID)

/-- Modelled from the spec: the kvstore methods `GetContextName` /
`StoreContextName` called by `fetchStatus` are not among the provided
sources (only their callers are). Per §4.3 and §6 the ContextNameCache
stores `context-{type}-{id} → name` with no TTL; a lookup returns the
cached name, or the empty string when absent (the caller treats `""` as a
miss and its `err != nil` branch is unreachable in this model). -/
def GetContextName (kv : KV) (ctxType id : String) : String :=
  match kvGet kv ("context-" ++ ctxType ++ "-" ++ id) with
  | some (.str s) => s
  | _ => ""

/-- Modelled from the spec: `StoreContextName` writes the resolved name
under `context-{type}-{id}`, idempotently and with no expiry (§4.3). -/
def StoreContextName (kv : KV) (ctxType id name : String) : KV :=
  kvSet kv ("context-" ++ ctxType ++ "-" ++ id) (.str name)

/-! ## kvstore, older generation (`Impl` over `pluginapi.Client`) -/

/-- `GetToken` (older kvstore): an absent key is an error
(`"no token found for user"`); there is no empty-bytes check. -/
def GetTokenOld (kv : KV) (userID : String) : Except String Token :=
  match kvGet kv ("token-" ++ userID) with
  | none => .error "no token found for user"
  | some (.tok t) => .ok t
  | some _ => .error "failed to unmarshal token"

/-- `CacheStatus` (older kvstore): a nil status *deletes* the
cached-status key (the delete's error is discarded); a non-nil status is
stored with a 30-second expiry. -/
def CacheStatusOld (kv : KV) (userID : String) (status : Option Status) : KV :=
  match status with
  | none => kvDelete kv ("cached-status-" ++ userID)
  | some s => kvSet kv ("cached-status-" ++ userID) (.stat s)

/-- `GetCachedStatus` (older kvstore): an absent key is an error
(`"no cached status found for user"`). -/
def GetCachedStatusOld (kv : KV) (userID : String) : Except String Status :=
  match kvGet kv ("cached-status-" ++ userID) with
  | none => .error "no cached status found for user"
  | some (.stat s) => .ok s
  | some _ => .error "failed to unmarshal status"

/-! ## Go string primitives used by the resolver -/

/-- `strings.Split(s, sep)` for a one-character separator, on character
lists: splits at every occurrence of the separator; the empty string
yields `[[]]`, as in Go. -/
def splitOnChar (sep : Char) : List Char → List (List Char)
  | [] => [[]]
  | x :: t =>
    if x = sep then [] :: splitOnChar sep t
    else
      match splitOnChar sep t with
      | [] => [[x]]
      | h :: r => (x :: h) :: r

/-- `strings.Split(s, ":")` as used on context URIs. -/
def goSplit (s : String) (sep : Char) : List String :=
  (splitOnChar sep s.data).map String.mk

/-- `strings.Index(hay, pat)` on character lists: the first index at which
`pat` occurs in `hay`, or `none`. An empty pattern occurs at index 0. -/
def firstIdx (pat : List Char) : List Char → Option Nat
  | [] => if pat = [] then some 0 else none
  | c :: t =>
    if pat.isPrefixOf (c :: t) then some 0
    else (firstIdx pat t).map (· + 1)

/-- `strings.Index`: `-1` when the pattern does not occur. -/
def goIndex (hay pat : String) : Int :=
  match firstIdx pat.data hay.data with
  | some n => (n : Int)
  | none => -1

/-- Go slicing `s[a:b]` (byte indices; the sources only slice ASCII). -/
def goSlice (s : String) (a b : Nat) : String :=
  String.mk ((s.data.drop a).take (b - a))

/-- `strings.TrimSuffix(s, suffix)`: removes `suffix` when present. -/
def goTrimSuffix (s suffix : String) : String :=
  if suffix.data.isSuffixOf s.data then
    String.mk (s.data.take (s.data.length - suffix.data.length))
  else s

/-- The playlist web-page fallback's name extraction (fetchStatus /
handleMe): take the text between the first `<title>` and the first
`</title>` (when the former precedes the latter), and strip a trailing
`" | Spotify Playlist"`; otherwise leave the name empty. -/
def extractTitleName (body : String) : String :=
  let titleStart := goIndex body "<title>"
  let titleEnd := goIndex body "</title>"
  if 0 ≤ titleStart ∧ titleStart < titleEnd then
    goTrimSuffix (goSlice body (titleStart.toNat + 7) titleEnd.toNat) " | Spotify Playlist"
  else ""

/-- `strings.ToUpper(string(s[0])) + s[1:]`: capitalize the first
character. Callers reach this only on non-empty strings; the sources
panic on an empty one and the resolver models that panic before calling
this. -/
def capitalizeGo (s : String) : String :=
  String.mk (match s.data with
    | [] => []
    | c :: t => c.toUpper :: t)

example : extractTitleName "<html><head><title>Chill Vibes | Spotify Playlist</title></head></html>" = "Chill Vibes" := by decide

example : goIndex "abcbc" "bc" = 1 := by decide

example : goSplit "spotify:playlist:abc123" ':' = ["spotify", "playlist", "abc123"] := by decide

example : goSplit "spotify" ':' = ["spotify"] := by decide

/-! ## The status resolver -/

/-- `spotify.PlaybackContext` as read by the handlers: the opaque context
URI, the context type string, and `ExternalURLs["spotify"]` (empty when
the map has no such entry). `Type` is a reserved word in Lean, so the Go
field `Type` is named `ctxType`. -/
structure PlaybackContext where
  URI : String
  ctxType : String
  ExternalURL : String
deriving DecidableEq

/-- `spotify.PlayerState` as read by the handlers. -/
structure PlayerState where
  Playing : Bool
  PlaybackContext : PlaybackContext
deriving DecidableEq

/-- One upstream network call made during a request, carrying the OAuth
token presented (the page fetch is unauthenticated). -/
inductive UpstreamCall where
  | refresh : Token → UpstreamCall
  | playback : Token → UpstreamCall
  | artistMeta : Token → String → UpstreamCall
  | playlistMeta : Token → String → UpstreamCall
  | albumMeta : Token → String → UpstreamCall
  | showMeta : Token → String → UpstreamCall
  | pageFetch : String → UpstreamCall
deriving DecidableEq

instance {ε α : Type} [DecidableEq ε] [DecidableEq α] : DecidableEq (Except ε α) := fun a b =>
  match a, b with
  | .ok x, .ok y =>
    if h : x = y then .isTrue (h ▸ rfl) else .isFalse (fun hc => h (by injection hc))
  | .error x, .error y =>
    if h : x = y then .isTrue (h ▸ rfl) else .isFalse (fun hc => h (by injection hc))
  | .ok _, .error _ => .isFalse (fun hc => Except.noConfusion hc)
  | .error _, .ok _ => .isFalse (fun hc => Except.noConfusion hc)

/-- The environment of one request: the responses the upstream services
would give, and whether each KV write would succeed. An
`Except String (Option _)` mirrors a Go `(ptr, err)` pair: `.error e` is
a non-nil error, `.ok none` is `(nil, nil)`, `.ok (some x)` a success. -/
structure FetchEnv where
  authConfigured : Bool
  refreshResult : Except String (Option Token)
  playerResult : Except String (Option PlayerState)
  artistResult : Except String (Option String)
  playlistResult : Except String (Option String)
  albumResult : Except String (Option (String × List String))
  showResult : Except String (Option String)
  pageBody : Option String
  storeTokenOk : Bool
  storeContextOk : Bool
  storeStatusOk : Bool
deriving DecidableEq

/-- The result of a Go function returning `(*T, error)`, with a third
possibility for a runtime panic (index out of range). -/
inductive Outcome (α : Type) where
  | ok : α → Outcome α
  | err : String → Outcome α
  | panicked : Outcome α
deriving DecidableEq

/-- Result of `fetchStatus`: its return value, the KV store it leaves
behind, and the upstream calls it performed, in order. -/
structure FetchResult where
  outcome : Outcome (Option Status)
  kv : KV
  calls : List UpstreamCall
deriving DecidableEq

/-- The context-name switch of `fetchStatus` (current generation, cache
miss): each metadata call either errors out of the whole resolution
(wrapped), returns `(nil, nil)`, or produces a name; the playlist
"Resource not found" case falls back to scraping the public page and
continues even when that scrape fails, leaving the name empty. A context
type matching no case leaves the name empty without calling upstream. -/
def resolveName (env : FetchEnv) (tok : Token) (ctxType extURL id : String) :
    Outcome (Option String) × List UpstreamCall :=
  if ctxType = "artist" then
    match env.artistResult with
    | .error e => (.err (wrapErr "failed to get artist" e), [.artistMeta tok id])
    | .ok none => (.ok none, [.artistMeta tok id])
    | .ok (some name) => (.ok (some name), [.artistMeta tok id])
  else if ctxType = "playlist" then
    match env.playlistResult with
    | .error e =>
      if e = "Resource not found" ∧ extURL ≠ "" then
        match env.pageBody with
        | some body => (.ok (some (extractTitleName body)), [.playlistMeta tok id, .pageFetch extURL])
        | none => (.ok (some ""), [.playlistMeta tok id, .pageFetch extURL])
      else (.err (wrapErr "failed to get playlist" e), [.playlistMeta tok id])
    | .ok none => (.ok none, [.playlistMeta tok id])
    | .ok (some name) => (.ok (some name), [.playlistMeta tok id])
  else if ctxType = "album" then
    match env.albumResult with
    | .error e => (.err (wrapErr "failed to get album" e), [.albumMeta tok id])
    | .ok none => (.ok none, [.albumMeta tok id])
    | .ok (some (name, artists)) =>
      match artists with
      | [] => (.panicked, [.albumMeta tok id])
      | a :: _ => (.ok (some (name ++ " - " ++ a)), [.albumMeta tok id])
  else if ctxType = "show" then
    match env.showResult with
    | .error e => (.err (wrapErr "failed to get show" e), [.showMeta tok id])
    | .ok none => (.ok none, [.showMeta tok id])
    | .ok (some name) => (.ok (some name), [.showMeta tok id])
  else (.ok (some ""), [])

/-- The final assembly of `fetchStatus` (lines 274–280): capitalizing the
context type panics on an empty type string (`Type[0]`). -/
def assembleStatus (ps : PlayerState) (name : String) : Outcome (Option Status) :=
  if ps.PlaybackContext.ctxType = "" then .panicked
  else
    .ok (some { IsConnected := true, IsPlaying := true,
                PlaybackType := capitalizeGo ps.PlaybackContext.ctxType,
                PlaybackURL := ps.PlaybackContext.ExternalURL,
                PlaybackName := name })

/-- `fetchStatus` from the playback call on (lines 193–284): not playing
returns `{IsConnected: false, IsPlaying: false}` as written in the source;
playing takes the third `:`-segment of the context URI (panicking when it
does not exist), consults the context-name cache, resolves on a miss, and
writes a non-empty resolved name back best-effort (a failed write is
logged and ignored). -/
def fetchPlay (env : FetchEnv) (kv : KV) (tok : Token) : FetchResult :=
  match env.playerResult with
  | .error e => ⟨.err (wrapErr "failed to get player state" e), kv, [.playback tok]⟩
  | .ok none => ⟨.ok none, kv, [.playback tok]⟩
  | .ok (some ps) =>
    if ps.Playing = false then
      ⟨.ok (some ⟨false, false, "", "", ""⟩), kv, [.playback tok]⟩
    else
      match (goSplit ps.PlaybackContext.URI ':')[2]? with
      | none => ⟨.panicked, kv, [.playback tok]⟩
      | some id =>
        let cached := GetContextName kv ps.PlaybackContext.ctxType id
        if cached ≠ "" then
          ⟨assembleStatus ps cached, kv, [.playback tok]⟩
        else
          match resolveName env tok ps.PlaybackContext.ctxType ps.PlaybackContext.ExternalURL id with
          | (.panicked, cs) => ⟨.panicked, kv, .playback tok :: cs⟩
          | (.err e, cs) => ⟨.err e, kv, .playback tok :: cs⟩
          | (.ok none, cs) => ⟨.ok none, kv, .playback tok :: cs⟩
          | (.ok (some name), cs) =>
            let kv2 :=
              if name ≠ "" ∧ env.storeContextOk then
                StoreContextName kv ps.PlaybackContext.ctxType id name
              else kv
            ⟨assembleStatus ps name, kv2, .playback tok :: cs⟩

/-- `fetchStatus` (current generation, part of the status handler): token
lookup, synchronous refresh when the token expires within 5m30s (330s) —
a refresh failure is terminal — and then the playback path. After a
successful refresh the source stores the new token but keeps using the
stale `tok` variable for the upstream client, which this model mirrors. -/
def fetchStatus (env : FetchEnv) (kv : KV) (now : Int) (userID : String) : FetchResult :=
  if env.authConfigured = false then ⟨.err "Spotify not configured", kv, []⟩
  else
    match GetToken kv userID with
    | .error e => ⟨.err (wrapErr "error reading token for user" e), kv, []⟩
    | .ok none => ⟨.ok (some ⟨false, false, "", "", ""⟩), kv, []⟩
    | .ok (some tok) =>
      if tok.Expiry - now < 330 then
        match env.refreshResult with
        | .error e => ⟨.err (wrapErr "failed to refresh token" e), kv, [.refresh tok]⟩
        | .ok none => ⟨.ok none, kv, [.refresh tok]⟩
        | .ok (some newTok) =>
          if env.storeTokenOk = false then
            ⟨.err "failed to store refreshed token", kv, [.refresh tok]⟩
          else
            let r := fetchPlay env (StoreToken kv userID newTok) tok
            ⟨r.outcome, r.kv, .refresh tok :: r.calls⟩
      else fetchPlay env kv tok

/-- An HTTP response of a handler: a 200 with a JSON body (possibly the
JSON `null` of a nil pointer), an `http.Error` with its status code, or a
panic that escapes the handler. -/
inductive HResp where
  | ok : Option Status → HResp
  | httpError : Nat → String → HResp
  | panicked : HResp
deriving DecidableEq

/-- Result of an HTTP handler: response, resulting KV store, upstream
calls in order. -/
structure HandleResult where
  resp : HResp
  kv : KV
  calls : List UpstreamCall
deriving DecidableEq

/-- `handleStatus` (current generation, part_004 lines 110–155): the
identity is taken from the `Mattermost-User-ID` header; the `{userId}`
path variable is never read. A cached status is returned as is; on a miss
the handler resolves fresh with the requester's own identity and caches
the result — a failed status-cache write aborts with a 500 instead of
returning the fetched status. -/
def handleStatus (env : FetchEnv) (kv : KV) (now : Int) (headerUserID pathUserID : String) :
    HandleResult :=
  if headerUserID = "" then ⟨.httpError 400 "invalid user", kv, []⟩
  else
    match GetCachedStatus kv headerUserID with
    | .error _ => ⟨.httpError 500 "failed to get cached status", kv, []⟩
    | .ok (some status) => ⟨.ok (some status), kv, []⟩
    | .ok none =>
      let r := fetchStatus env kv now headerUserID
      match r.outcome with
      | .panicked => ⟨.panicked, r.kv, r.calls⟩
      | .err _ => ⟨.httpError 500 "failed to fetch status", r.kv, r.calls⟩
      | .ok st =>
        if env.storeStatusOk = false then
          ⟨.httpError 500 "failed to cache status", r.kv, r.calls⟩
        else ⟨.ok st, StoreCacheStatus r.kv headerUserID st, r.calls⟩

/-- `handleStatus` (older generation, api.go lines 207–229): a strictly
read-only cache lookup under the requester's identity; any failure —
including an absent cache entry — reports `404 no status available`, and
no upstream call is ever made. -/
def handleStatusOld (kv : KV) (headerUserID pathUserID : String) : HandleResult :=
  if headerUserID = "" then ⟨.httpError 400 "invalid user", kv, []⟩
  else
    match GetCachedStatusOld kv headerUserID with
    | .error _ => ⟨.httpError 404 "no status available", kv, []⟩
    | .ok s => ⟨.ok (some s), kv, []⟩

/-- Result of the context-name switch in the older `handleMe` (api.go
lines 134–179): the name found (possibly empty) together with the final
value of the shared `err` variable — no case returns early there — or a
panic from `album.Artists[0]`. -/
inductive NameErr where
  | res : String → Option String → NameErr
  | panicked : NameErr
deriving DecidableEq

/-- The context-name switch of the older `handleMe`: a case only sets the
name when its call succeeded; errors are carried in `err` and examined
after the switch. In the playlist "Resource not found" fallback, `err` is
overwritten by the page fetch (becoming nil on a successful fetch and
read); a failed fetch leaves a non-nil `err`, modelled with a fixed
message. -/
def resolveNameOld (env : FetchEnv) (tok : Token) (ctxType extURL id : String) :
    NameErr × List UpstreamCall :=
  if ctxType = "artist" then
    match env.artistResult with
    | .error e => (.res "" (some e), [.artistMeta tok id])
    | .ok none => (.res "" none, [.artistMeta tok id])
    | .ok (some name) => (.res name none, [.artistMeta tok id])
  else if ctxType = "playlist" then
    match env.playlistResult with
    | .error e =>
      if e = "Resource not found" ∧ extURL ≠ "" then
        match env.pageBody with
        | some body => (.res (extractTitleName body) none, [.playlistMeta tok id, .pageFetch extURL])
        | none => (.res "" (some "page fetch failed"), [.playlistMeta tok id, .pageFetch extURL])
      else (.res "" (some e), [.playlistMeta tok id])
    | .ok none => (.res "" none, [.playlistMeta tok id])
    | .ok (some name) => (.res name none, [.playlistMeta tok id])
  else if ctxType = "album" then
    match env.albumResult with
    | .error e => (.res "" (some e), [.albumMeta tok id])
    | .ok none => (.res "" none, [.albumMeta tok id])
    | .ok (some (name, artists)) =>
      match artists with
      | [] => (.panicked, [.albumMeta tok id])
      | a :: _ => (.res (name ++ " - " ++ a) none, [.albumMeta tok id])
  else if ctxType = "show" then
    match env.showResult with
    | .error e => (.res "" (some e), [.showMeta tok id])
    | .ok none => (.res "" none, [.showMeta tok id])
    | .ok (some name) => (.res name none, [.showMeta tok id])
  else (.res "" none, [])

/-- The closure passed to `handleSpotify` by the older `handleMe`
(api.go lines 115–204) together with `handleSpotify`'s handling of its
result: a nil/failed player state deletes the cached status and surfaces
the error; not playing caches `&Status{IsPlaying: false}` (a failed cache
write aborts with a 400); playing resolves a context name, and an empty
name or pending error deletes the cached status and surfaces the error
(or responds 200 when `err` is nil). On success the handler encodes the
closure's first return value, which is always nil. -/
def handleMeClient (env : FetchEnv) (kv : KV) (userID : String) (tok : Token) : HandleResult :=
  match env.playerResult with
  | .error e =>
    ⟨.httpError 400 (wrapErr "cannot perform spotify commands" e),
      CacheStatusOld kv userID none, [.playback tok]⟩
  | .ok none => ⟨.ok none, CacheStatusOld kv userID none, [.playback tok]⟩
  | .ok (some ps) =>
    if ps.Playing = false then
      if env.storeStatusOk = false then
        ⟨.httpError 400 (wrapErr "cannot perform spotify commands" "failed to cache status"),
          kv, [.playback tok]⟩
      else ⟨.ok none, CacheStatusOld kv userID (some ⟨false, false, "", "", ""⟩), [.playback tok]⟩
    else
      match (goSplit ps.PlaybackContext.URI ':')[2]? with
      | none => ⟨.panicked, kv, [.playback tok]⟩
      | some id =>
        match resolveNameOld env tok ps.PlaybackContext.ctxType ps.PlaybackContext.ExternalURL id with
        | (.panicked, cs) => ⟨.panicked, kv, .playback tok :: cs⟩
        | (.res name errOpt, cs) =>
          if name = "" ∨ errOpt ≠ none then
            match errOpt with
            | some e =>
              ⟨.httpError 400 (wrapErr "cannot perform spotify commands" e),
                CacheStatusOld kv userID none, .playback tok :: cs⟩
            | none => ⟨.ok none, CacheStatusOld kv userID none, .playback tok :: cs⟩
          else
            if ps.PlaybackContext.ctxType = "" then ⟨.panicked, kv, .playback tok :: cs⟩
            else
              if env.storeStatusOk = false then
                ⟨.httpError 400 (wrapErr "cannot perform spotify commands" "failed to cache status"),
                  kv, .playback tok :: cs⟩
              else
                ⟨.ok none,
                  CacheStatusOld kv userID
                    (some ⟨false, true, capitalizeGo ps.PlaybackContext.ctxType,
                      ps.PlaybackContext.ExternalURL, name⟩),
                  .playback tok :: cs⟩

/-- The older `handleMe` with `handleSpotify` (api.go lines 106–273): the
identity comes from the header; the token comes from the older kvstore,
whose absence is an error (400). A token expiring within 5m30s triggers a
refresh, but — unlike `fetchStatus` — a failed refresh is silently
ignored and the stale token is used for the upstream calls; a successful
refresh switches to the new token and stores it best-effort. -/
def handleMe (env : FetchEnv) (kv : KV) (now : Int) (userID : String) : HandleResult :=
  if userID = "" then ⟨.httpError 400 "invalid user", kv, []⟩
  else if env.authConfigured = false then ⟨.httpError 500 "Spotify not configured", kv, []⟩
  else
    match GetTokenOld kv userID with
    | .error _ => ⟨.httpError 400 "no token for user", kv, []⟩
    | .ok tok =>
      if tok.Expiry - now < 330 then
        match env.refreshResult with
        | .ok (some newTok) =>
          let kv1 := if env.storeTokenOk then StoreToken kv userID newTok else kv
          let r := handleMeClient env kv1 userID newTok
          ⟨r.resp, r.kv, .refresh tok :: r.calls⟩
        | _ =>
          let r := handleMeClient env kv userID tok
          ⟨r.resp, r.kv, .refresh tok :: r.calls⟩
      else handleMeClient env kv userID tok

/-! ## Key-namespace facts -/

theorem email_key_ne_uid_key (e u : String) : ("email-" ++ e) ≠ ("uid-" ++ u) := by
  intro h
  have h2 := congrArg String.data h
  simp [String.data_append] at h2

theorem email_key_ne_token_key (e u : String) : ("email-" ++ e) ≠ ("token-" ++ u) := by
  intro h
  have h2 := congrArg String.data h
  simp [String.data_append] at h2

theorem email_key_ne_cached_key (e u : String) :
    ("email-" ++ e) ≠ ("cached-status-" ++ u) := by
  intro h
  have h2 := congrArg String.data h
  simp [String.data_append] at h2

theorem uid_key_ne_token_key (u u' : String) : ("uid-" ++ u) ≠ ("token-" ++ u') := by
  intro h
  have h2 := congrArg String.data h
  simp [String.data_append] at h2

theorem uid_key_ne_cached_key (u u' : String) :
    ("uid-" ++ u) ≠ ("cached-status-" ++ u') := by
  intro h
  have h2 := congrArg String.data h
  simp [String.data_append] at h2

/-! ## Claims -/

/-- **C2**, amended: for every store contents and every `(userId, email)`
with a non-empty email, after `StoreUserEmail(userId, email)`,
`GetUserIDByEmail(email)` returns `userId` and `GetEmailByUserID(userId)`
returns `email`; after a subsequent `ClearUserData(userId)`, both lookups
fail with their not-found errors. (The empty-email case fails: see the
counterexample.) -/
theorem c2_mapping_roundtrip_and_clear (kv : KV) (u e : String) (he : e ≠ "") :
    GetUserIDByEmail (StoreUserEmail kv u e) e = .ok u ∧
    GetEmailByUserID (StoreUserEmail kv u e) u = .ok e ∧
    GetUserIDByEmail (ClearUserData (StoreUserEmail kv u e) u) e =
      .error "no user ID found for email" ∧
    GetEmailByUserID (ClearUserData (StoreUserEmail kv u e) u) u =
      .error "no email found for user ID" := by
  have h1 : GetUserIDByEmail (StoreUserEmail kv u e) e = .ok u := by
    unfold GetUserIDByEmail StoreUserEmail
    rw [kvGet_set_other _ _ _ _ (email_key_ne_uid_key e u), kvGet_set_same]
    rfl
  have h2 : GetEmailByUserID (StoreUserEmail kv u e) u = .ok e := by
    unfold GetEmailByUserID StoreUserEmail
    rw [kvGet_set_same]
    rfl
  refine ⟨h1, h2, ?_, ?_⟩
  · unfold ClearUserData
    rw [h2]
    simp only [he, if_pos, ne_eq, not_false_iff, if_true]
    unfold GetUserIDByEmail
    rw [kvGet_delete_other _ _ _ (email_key_ne_cached_key e u),
      kvGet_delete_other _ _ _ (email_key_ne_token_key e u),
      kvGet_delete_other _ _ _ (email_key_ne_uid_key e u),
      kvGet_delete_same]
  · unfold ClearUserData
    rw [h2]
    simp only [he, if_pos, ne_eq, not_false_iff, if_true]
    unfold GetEmailByUserID
    rw [kvGet_delete_other _ _ _ (uid_key_ne_cached_key u u),
      kvGet_delete_other _ _ _ (uid_key_ne_token_key u u),
      kvGet_delete_same]

/-- Witness for C2: the round trip and the clear at a concrete pair. -/
theorem c2_mapping_roundtrip_and_clear_witness :
    GetUserIDByEmail (StoreUserEmail [] "user1" "alice@example.com") "alice@example.com" =
      .ok "user1" ∧
    GetEmailByUserID (StoreUserEmail [] "user1" "alice@example.com") "user1" =
      .ok "alice@example.com" ∧
    GetUserIDByEmail (ClearUserData (StoreUserEmail [] "user1" "alice@example.com") "user1")
      "alice@example.com" = .error "no user ID found for email" ∧
    GetEmailByUserID (ClearUserData (StoreUserEmail [] "user1" "alice@example.com") "user1")
      "user1" = .error "no email found for user ID" :=
  c2_mapping_roundtrip_and_clear [] "user1" "alice@example.com" (by decide)

/-- **C2**, counterexample: with the empty email, `ClearUserData` skips
deleting the `email-` mapping (its `email != ""` guard fails), so the
email→user lookup still succeeds after the clear instead of failing with
a not-found error. -/
theorem c2_counterexample :
    GetUserIDByEmail (ClearUserData (StoreUserEmail [] "user1" "") "user1") "" =
      .ok "user1" := by
  decide

/-- **C4**, amended: for every store contents and userId, a status-cache
`Put` with a nil status *deletes* the user's cached-status key, leaving
it absent — there is no negative cache entry distinct from absence. This
holds in both kvstore generations. -/
theorem c4_put_nil_deletes (kv : KV) (u : String) :
    kvGet (StoreCacheStatus kv u none) ("cached-status-" ++ u) = none ∧
    kvGet (CacheStatusOld kv u none) ("cached-status-" ++ u) = none ∧
    GetCachedStatus (StoreCacheStatus kv u none) u = .ok none := by
  refine ⟨?_, ?_, ?_⟩
  · unfold StoreCacheStatus
    exact kvGet_delete_same kv _
  · unfold CacheStatusOld
    exact kvGet_delete_same kv _
  · unfold GetCachedStatus StoreCacheStatus
    rw [kvGet_delete_same]

/-- Witness for C4 at a concrete store that held a cached status. -/
theorem c4_put_nil_deletes_witness :
    kvGet
      (StoreCacheStatus [("cached-status-u7", .stat ⟨true, false, "", "", ""⟩)] "u7" none)
      ("cached-status-" ++ "u7") = none ∧
    kvGet
      (CacheStatusOld [("cached-status-u7", .stat ⟨true, false, "", "", ""⟩)] "u7" none)
      ("cached-status-" ++ "u7") = none ∧
    GetCachedStatus
      (StoreCacheStatus [("cached-status-u7", .stat ⟨true, false, "", "", ""⟩)] "u7" none)
      "u7" = .ok none :=
  c4_put_nil_deletes [("cached-status-u7", .stat ⟨true, false, "", "", ""⟩)] "u7"

/-- **C4**, counterexample: the claim says `Put(u, nil)` stores a
readable negative entry rather than leaving the key absent; in fact the
key is absent immediately after the write (so within any positive TTL),
indistinguishable from never having been cached. -/
theorem c4_counterexample :
    kvGet (StoreCacheStatus [("cached-status-u1", .stat ⟨false, false, "", "", ""⟩)] "u1" none)
      "cached-status-u1" = none := by
  decide

/-- **C9**, amended: the current-generation `GetToken` returns the
defined no-token result `(nil, nil)` — not an error — whenever the user's
token key is absent. (The older generation's `GetToken` instead fails
with an error: see the counterexample.) -/
theorem c9_get_token_absent (kv : KV) (u : String)
    (h : kvGet kv ("token-" ++ u) = none) :
    GetToken kv u = .ok none := by
  unfold GetToken
  rw [h]

/-- Witness for C9 on the empty store. -/
theorem c9_get_token_absent_witness : GetToken [] "u1" = .ok none :=
  c9_get_token_absent [] "u1" (by decide)

/-- **C9**, counterexample: the older kvstore's `GetToken` (also among
the claim's sources) returns a not-found *error* for a user with no
stored token, so the claim does not hold of every `GetToken` in the
sources. -/
theorem c9_counterexample :
    GetTokenOld [] "u1" = .error "no token found for user" := by
  decide


/-! ## Upstream-call traces -/

/-- Whether an upstream call is a token refresh. -/
def isRefresh : UpstreamCall → Bool
  | .refresh _ => true
  | _ => false

/-- How many token-refresh calls a trace contains. -/
def refreshCount : List UpstreamCall → Nat
  | [] => 0
  | c :: t => (if isRefresh c then 1 else 0) + refreshCount t

/-- The OAuth token an upstream call presents (the page fetch presents none). -/
def callToken : UpstreamCall → Option Token
  | .refresh t => some t
  | .playback t => some t
  | .artistMeta t _ => some t
  | .playlistMeta t _ => some t
  | .albumMeta t _ => some t
  | .showMeta t _ => some t
  | .pageFetch _ => none

/-- All tokens presented upstream during a trace. -/
def tokensUsed (cs : List UpstreamCall) : List Token :=
  cs.filterMap callToken

/-- The context-name switch never refreshes and presents only the token it
was handed. -/
theorem resolveName_calls_spec (env : FetchEnv) (tok : Token) (ctxType extURL id : String) :
    refreshCount (resolveName env tok ctxType extURL id).2 = 0 ∧
    ∀ t' ∈ tokensUsed (resolveName env tok ctxType extURL id).2, t' = tok := by
  unfold resolveName
  repeat' split
  all_goals simp [refreshCount, isRefresh, tokensUsed, callToken]

/-- The playback stage never refreshes, always begins with the playback
call, and presents only the token it was handed. -/
theorem fetchPlay_calls_spec (env : FetchEnv) (kv : KV) (tok : Token) :
    refreshCount (fetchPlay env kv tok).calls = 0 ∧
    (∃ rest, (fetchPlay env kv tok).calls = .playback tok :: rest) ∧
    ∀ t' ∈ tokensUsed (fetchPlay env kv tok).calls, t' = tok := by
  cases hp : env.playerResult with
  | error e => simp [fetchPlay, hp, refreshCount, isRefresh, tokensUsed, callToken]
  | ok ores =>
    cases ores with
    | none => simp [fetchPlay, hp, refreshCount, isRefresh, tokensUsed, callToken]
    | some ps =>
      cases hplay : ps.Playing with
      | false => simp [fetchPlay, hp, hplay, refreshCount, isRefresh, tokensUsed, callToken]
      | true =>
        cases hid : (goSplit ps.PlaybackContext.URI ':')[2]? with
        | none => simp [fetchPlay, hp, hplay, hid, refreshCount, isRefresh, tokensUsed, callToken]
        | some id =>
          by_cases hc : GetContextName kv ps.PlaybackContext.ctxType id = ""
          · rcases hres : resolveName env tok ps.PlaybackContext.ctxType ps.PlaybackContext.ExternalURL id with ⟨o, cs⟩
            have hspec := resolveName_calls_spec env tok ps.PlaybackContext.ctxType ps.PlaybackContext.ExternalURL id
            rw [hres] at hspec
            dsimp only at hspec
            cases o with
            | ok ons =>
              cases ons with
              | none =>
                simp [fetchPlay, hp, hplay, hid, hc, hres, refreshCount, isRefresh, tokensUsed, callToken, hspec.1]
                intro t' x hx hcx
                exact hspec.2 t' (by simp [tokensUsed]; exact ⟨x, hx, hcx⟩)
              | some name =>
                simp [fetchPlay, hp, hplay, hid, hc, hres, refreshCount, isRefresh, tokensUsed, callToken, hspec.1]
                intro t' x hx hcx
                exact hspec.2 t' (by simp [tokensUsed]; exact ⟨x, hx, hcx⟩)
            | err e =>
              simp [fetchPlay, hp, hplay, hid, hc, hres, refreshCount, isRefresh, tokensUsed, callToken, hspec.1]
              intro t' x hx hcx
              exact hspec.2 t' (by simp [tokensUsed]; exact ⟨x, hx, hcx⟩)
            | panicked =>
              simp [fetchPlay, hp, hplay, hid, hc, hres, refreshCount, isRefresh, tokensUsed, callToken, hspec.1]
              intro t' x hx hcx
              exact hspec.2 t' (by simp [tokensUsed]; exact ⟨x, hx, hcx⟩)
          · simp [fetchPlay, hp, hplay, hid, hc, refreshCount, isRefresh, tokensUsed, callToken]

/-- A refresh-free trace has no refresh call at any position. -/
theorem refreshCount_zero_no_refresh (cs : List UpstreamCall) (h : refreshCount cs = 0) :
    ∀ (i : Nat) (c : UpstreamCall), cs[i]? = some c → isRefresh c = false := by
  induction cs with
  | nil => intro i c hc; simp at hc
  | cons a t ih =>
    intro i c hc
    rcases i with _ | j
    · have hac : a = c := by simpa using hc
      have ha : isRefresh a = false := by
        cases hia : isRefresh a
        · rfl
        · exfalso
          rw [refreshCount, hia] at h
          simp at h
      exact hac ▸ ha
    · rw [List.getElem?_cons_succ] at hc
      have hta : refreshCount t = 0 := by
        rw [refreshCount] at h
        omega
      exact ih hta j c hc

/-- A request environment in which the user's token is valid and upstream
reports that nothing is playing; all other upstream services are
irrelevant and fail if consulted. -/
def envNotPlaying : FetchEnv :=
  { authConfigured := true
    refreshResult := .error "unexpected refresh"
    playerResult := .ok (some ⟨false, ⟨"", "", ""⟩⟩)
    artistResult := .error "unexpected"
    playlistResult := .error "unexpected"
    albumResult := .error "unexpected"
    showResult := .error "unexpected"
    pageBody := none
    storeTokenOk := true
    storeContextOk := true
    storeStatusOk := true }

/-- **C3** (evaluating the code at the failing input): with a stored
token far from expiry and upstream reporting "not playing", `fetchStatus`
returns and `handleStatus` caches `{IsConnected: false, IsPlaying: false}`
— `IsConnected` is `false`, not `true` as the claim (and the spec's
step 5) requires. The branch even logs "no token" for a user whose token
it just used, betraying the copy-paste from the no-token branch. -/
theorem c3_not_playing_divergence :
    (fetchStatus envNotPlaying [("token-u1", .tok ⟨"acc", "ref", 1000000⟩)] 0 "u1").outcome =
      .ok (some { IsConnected := false, IsPlaying := false,
                  PlaybackType := "", PlaybackURL := "", PlaybackName := "" }) ∧
    GetCachedStatus
      (handleStatus envNotPlaying [("token-u1", .tok ⟨"acc", "ref", 1000000⟩)] 0 "u1" "u2").kv
      "u1" =
      .ok (some { IsConnected := false, IsPlaying := false,
                  PlaybackType := "", PlaybackURL := "", PlaybackName := "" }) := by
  constructor
  · decide
  · decide

/-- A playing playback response whose context URI has no colons at all:
`strings.Split(uri, ":")` yields a single segment and indexing `[2]`
panics. -/
def envNoColonURI : FetchEnv :=
  { envNotPlaying with
    playerResult := .ok (some ⟨true, ⟨"spotify", "playlist", "https://x"⟩⟩) }

/-- A playing playback response with a well-formed URI but an empty
context type string: `Type[0]` in the final assembly panics. -/
def envEmptyCtxType : FetchEnv :=
  { envNotPlaying with
    playerResult := .ok (some ⟨true, ⟨"spotify:playlist:abc123", "", "https://x"⟩⟩) }

/-- **C10**: there are upstream playing responses on which status
resolution panics instead of returning an error — a context URI with
fewer than two colons (third `:`-segment indexed unchecked, in both
`fetchStatus` and the older `handleMe`), and an empty context type string
(first byte indexed unchecked in `fetchStatus`'s assembly). -/
theorem c10_resolution_panics :
    (fetchStatus envNoColonURI [("token-u1", .tok ⟨"acc", "ref", 1000000⟩)] 0 "u1").outcome =
      .panicked ∧
    (fetchStatus envEmptyCtxType [("token-u1", .tok ⟨"acc", "ref", 1000000⟩)] 0 "u1").outcome =
      .panicked ∧
    (handleMe envNoColonURI [("token-u1", .tok ⟨"acc", "ref", 1000000⟩)] 0 "u1").resp =
      .panicked ∧
    (handleStatus envNoColonURI [("token-u1", .tok ⟨"acc", "ref", 1000000⟩)] 0 "u1" "u2").resp =
      .panicked := by
  refine ⟨by decide, by decide, by decide, by decide⟩

@[simp] theorem isRefresh_refresh (t : Token) : isRefresh (.refresh t) = true := rfl

@[simp] theorem isRefresh_playback (t : Token) : isRefresh (.playback t) = false := rfl

/-- In a one-call trace consisting of a refresh, any refresh sits at
position 0. -/
theorem refresh_singleton_only_first (t : Token) :
    ∀ (i : Nat) (c : UpstreamCall),
      [UpstreamCall.refresh t][i]? = some c → isRefresh c = true → i = 0 := by
  intro i c hc _
  rcases i with _ | j
  · rfl
  · rw [List.getElem?_cons_succ] at hc
    simp at hc

/-- **C6**: a resolution attempt with a stored token performs the
upstream refresh call iff `expiry − now < 5m30s` (330 s): the trace holds
exactly one refresh in that case and zero otherwise; any refresh is the
first call, so it precedes the playback call, which follows immediately
when the refresh succeeds and the new token is stored; far from expiry
the playback call comes first with no refresh at all. -/
theorem c6_refresh_iff_near_expiry (env : FetchEnv) (kv : KV) (now : Int) (u : String) (t : Token)
    (hauth : env.authConfigured = true)
    (htok : GetToken kv u = .ok (some t)) :
    (refreshCount (fetchStatus env kv now u).calls = if t.Expiry - now < 330 then 1 else 0) ∧
    (∀ (i : Nat) (c : UpstreamCall),
      (fetchStatus env kv now u).calls[i]? = some c → isRefresh c = true → i = 0) ∧
    (t.Expiry - now < 330 → ∀ t2, env.refreshResult = .ok (some t2) → env.storeTokenOk = true →
      (fetchStatus env kv now u).calls[0]? = some (.refresh t) ∧
      (fetchStatus env kv now u).calls[1]? = some (.playback t)) ∧
    (¬ (t.Expiry - now < 330) →
      (fetchStatus env kv now u).calls[0]? = some (.playback t)) := by
  by_cases hnear : t.Expiry - now < 330
  · cases href : env.refreshResult with
    | error e =>
      simp only [fetchStatus, hauth, htok, href]
      simp [hnear, refreshCount]
      exact refresh_singleton_only_first t
    | ok oref =>
      cases oref with
      | none =>
        simp only [fetchStatus, hauth, htok, href]
        simp [hnear, refreshCount]
        exact refresh_singleton_only_first t
      | some t2 =>
        cases hst : env.storeTokenOk with
        | false =>
          simp only [fetchStatus, hauth, htok, href, hst]
          simp [hnear, refreshCount]
          exact refresh_singleton_only_first t
        | true =>
          have spec := fetchPlay_calls_spec env (StoreToken kv u t2) t
          rcases spec.2.1 with ⟨rest, hrest⟩
          simp only [fetchStatus, hauth, htok, href, hst]
          simp [hnear, refreshCount, spec.1]
          refine ⟨?_, ?_⟩
          · intro i c hc hr
            rcases i with _ | j
            · rfl
            · rw [List.getElem?_cons_succ] at hc
              have hf := refreshCount_zero_no_refresh _ spec.1 j c hc
              rw [hf] at hr
              simp at hr
          · rw [hrest]
            simp
  · have spec := fetchPlay_calls_spec env kv t
    rcases spec.2.1 with ⟨rest, hrest⟩
    simp only [fetchStatus, hauth, htok]
    simp [hnear, refreshCount, spec.1]
    refine ⟨?_, ?_⟩
    · intro i c hc hr
      have hf := refreshCount_zero_no_refresh _ spec.1 i c hc
      rw [hf] at hr
      simp at hr
    · rw [hrest]
      simp

/-- A request environment whose refresh succeeds; upstream reports not
playing. -/
def envRefreshOk : FetchEnv :=
  { envNotPlaying with refreshResult := .ok (some ⟨"newacc", "newref", 100000⟩) }

/-- Witness for C6: with `expiry = now + 2m` exactly one refresh occurs,
as the first call, followed by the playback call with the (stale) token;
with `expiry = now + 1h` zero refresh calls occur. -/
theorem c6_refresh_iff_near_expiry_witness :
    refreshCount (fetchStatus envRefreshOk [("token-u1", .tok ⟨"acc", "ref", 120⟩)] 0 "u1").calls
      = 1 ∧
    (fetchStatus envRefreshOk [("token-u1", .tok ⟨"acc", "ref", 120⟩)] 0 "u1").calls[0]? =
      some (.refresh ⟨"acc", "ref", 120⟩) ∧
    (fetchStatus envRefreshOk [("token-u1", .tok ⟨"acc", "ref", 120⟩)] 0 "u1").calls[1]? =
      some (.playback ⟨"acc", "ref", 120⟩) ∧
    refreshCount (fetchStatus envRefreshOk [("token-u1", .tok ⟨"acc", "ref", 3600⟩)] 0 "u1").calls
      = 0 := by
  have h1 := c6_refresh_iff_near_expiry envRefreshOk [("token-u1", .tok ⟨"acc", "ref", 120⟩)]
    0 "u1" ⟨"acc", "ref", 120⟩ (by decide) (by decide)
  have h2 := c6_refresh_iff_near_expiry envRefreshOk [("token-u1", .tok ⟨"acc", "ref", 3600⟩)]
    0 "u1" ⟨"acc", "ref", 3600⟩ (by decide) (by decide)
  have h3 := h1.2.2.1 (by decide) ⟨"newacc", "newref", 100000⟩ (by decide) (by decide)
  refine ⟨by simpa using h1.1, h3.1, h3.2, by simpa using h2.1⟩

/-- **C5**, amended: in `fetchStatus` (the cache-miss resolution path of
the status handler) a near-expiry token whose upstream refresh fails
makes the whole attempt fail with the wrapped token-refresh error: no
playback call is made with the stale token, the store is unchanged, and
the surrounding handler responds 500 without caching any negative
status. (The older `handleSpotify` helper instead ignores the failed
refresh and proceeds with the stale token: see the counterexample.) -/
theorem c5_fetch_refresh_failure_terminal (env : FetchEnv) (kv : KV) (now : Int)
    (u b : String) (t : Token) (e : String)
    (hauth : env.authConfigured = true)
    (hu : u ≠ "")
    (htok : GetToken kv u = .ok (some t))
    (hnear : t.Expiry - now < 330)
    (href : env.refreshResult = .error e)
    (hmiss : GetCachedStatus kv u = .ok none) :
    (fetchStatus env kv now u).outcome = .err (wrapErr "failed to refresh token" e) ∧
    (fetchStatus env kv now u).calls = [.refresh t] ∧
    (fetchStatus env kv now u).kv = kv ∧
    (handleStatus env kv now u b).resp = .httpError 500 "failed to fetch status" ∧
    (handleStatus env kv now u b).kv = kv := by
  have hf : fetchStatus env kv now u =
      ⟨.err (wrapErr "failed to refresh token" e), kv, [.refresh t]⟩ := by
    simp only [fetchStatus, hauth, htok, href]
    simp [hnear]
  refine ⟨by rw [hf], by rw [hf], by rw [hf], ?_, ?_⟩
  · simp only [handleStatus, hu, hmiss, hf]
    simp
  · simp only [handleStatus, hu, hmiss, hf]
    simp

/-- Witness for C5: a concrete near-expiry token whose refresh fails. -/
theorem c5_fetch_refresh_failure_terminal_witness :
    (fetchStatus envNotPlaying [("token-u1", .tok ⟨"acc", "ref", 100⟩)] 0 "u1").outcome =
      .err (wrapErr "failed to refresh token" "unexpected refresh") ∧
    (fetchStatus envNotPlaying [("token-u1", .tok ⟨"acc", "ref", 100⟩)] 0 "u1").calls =
      [.refresh ⟨"acc", "ref", 100⟩] ∧
    (fetchStatus envNotPlaying [("token-u1", .tok ⟨"acc", "ref", 100⟩)] 0 "u1").kv =
      [("token-u1", .tok ⟨"acc", "ref", 100⟩)] ∧
    (handleStatus envNotPlaying [("token-u1", .tok ⟨"acc", "ref", 100⟩)] 0 "u1" "u2").resp =
      .httpError 500 "failed to fetch status" ∧
    (handleStatus envNotPlaying [("token-u1", .tok ⟨"acc", "ref", 100⟩)] 0 "u1" "u2").kv =
      [("token-u1", .tok ⟨"acc", "ref", 100⟩)] :=
  c5_fetch_refresh_failure_terminal envNotPlaying [("token-u1", .tok ⟨"acc", "ref", 100⟩)]
    0 "u1" "u2" ⟨"acc", "ref", 100⟩ "unexpected refresh"
    (by decide) (by decide) (by decide) (by decide) (by decide) (by decide)

/-- **C5**, counterexample: in the older `handleMe`/`handleSpotify` path,
with a near-expiry token and a failing refresh, the handler still
proceeds to the playback call with the stale token and responds 200 —
the resolution attempt does not fail with a token-refresh error. -/
theorem c5_counterexample :
    (handleMe envNotPlaying [("token-u1", .tok ⟨"acc", "ref", 100⟩)] 0 "u1").calls =
      [.refresh ⟨"acc", "ref", 100⟩, .playback ⟨"acc", "ref", 100⟩] ∧
    (handleMe envNotPlaying [("token-u1", .tok ⟨"acc", "ref", 100⟩)] 0 "u1").resp = .ok none := by
  exact ⟨by decide, by decide⟩

/-- Every token presented upstream during a resolution is the requester's
stored token: even after a successful refresh the source keeps using the
stale `tok` variable, so the trace never carries any other token. -/
theorem fetchStatus_tokens (env : FetchEnv) (kv : KV) (now : Int) (u : String) :
    ∀ t' ∈ tokensUsed (fetchStatus env kv now u).calls, GetToken kv u = .ok (some t') := by
  cases hauth : env.authConfigured with
  | false => simp [fetchStatus, hauth, tokensUsed]
  | true =>
    cases hg : GetToken kv u with
    | error e => simp [fetchStatus, hauth, hg, tokensUsed]
    | ok otok =>
      cases otok with
      | none => simp [fetchStatus, hauth, hg, tokensUsed]
      | some tok =>
        by_cases hnear : tok.Expiry - now < 330
        · cases href : env.refreshResult with
          | error e =>
            simp [fetchStatus, hauth, hg, hnear, href, tokensUsed, callToken]
          | ok oref =>
            cases oref with
            | none => simp [fetchStatus, hauth, hg, hnear, href, tokensUsed, callToken]
            | some t2 =>
              cases hst : env.storeTokenOk with
              | false => simp [fetchStatus, hauth, hg, hnear, href, hst, tokensUsed, callToken]
              | true =>
                have spec := fetchPlay_calls_spec env (StoreToken kv u t2) tok
                intro t' ht'
                simp only [fetchStatus, hauth, hg, hnear, href, hst] at ht'
                simp [hnear, tokensUsed, callToken] at ht'
                rcases ht' with h | h
                · simp_all
                · have := spec.2.2 t' (by simpa [tokensUsed] using h)
                  simp_all
        · have spec := fetchPlay_calls_spec env kv tok
          intro t' ht'
          simp only [fetchStatus, hauth, hg] at ht'
          rw [if_neg hnear] at ht'
          have := spec.2.2 t' ht'
          simp_all

/-- **C1**, amended: the fetch-and-cache `handleStatus` never reads the
`{userId}` path variable (the result is the same for any target user),
and every upstream call it makes presents the token stored under the
requesting identity (the `Mattermost-User-ID` header) — never another
user's token. The older read-only `handleStatus` never calls upstream at
all and reports `404 no status available` when nothing is cached. (The
claim's further assertion that a read finding nothing cached always
reports "no status available" without upstream calls fails for the
fetch-and-cache version: see the counterexample.) -/
theorem c1_requester_identity_only (env : FetchEnv) (kv : KV) (now : Int) (a b b' : String) :
    (handleStatus env kv now a b = handleStatus env kv now a b') ∧
    (∀ t' ∈ tokensUsed (handleStatus env kv now a b).calls, GetToken kv a = .ok (some t')) ∧
    ((handleStatusOld kv a b).calls = []) ∧
    (a ≠ "" → kvGet kv ("cached-status-" ++ a) = none →
      (handleStatusOld kv a b).resp = .httpError 404 "no status available") := by
  refine ⟨rfl, ?_, ?_, ?_⟩
  · by_cases ha : a = ""
    · simp [handleStatus, ha, tokensUsed]
    · cases hc : GetCachedStatus kv a with
      | error e => simp [handleStatus, ha, hc, tokensUsed]
      | ok os =>
        cases os with
        | some s => simp [handleStatus, ha, hc, tokensUsed]
        | none =>
          have hcalls : (handleStatus env kv now a b).calls = (fetchStatus env kv now a).calls := by
            simp only [handleStatus, ha, hc]
            cases ho : (fetchStatus env kv now a).outcome with
            | ok st => simp [ho]; split <;> rfl
            | err e => simp [ho]
            | panicked => simp [ho]
          intro t' ht'
          rw [hcalls] at ht'
          exact fetchStatus_tokens env kv now a t' ht'
  · by_cases ha : a = ""
    · simp [handleStatusOld, ha]
    · cases hc : GetCachedStatusOld kv a with
      | error e => simp [handleStatusOld, ha, hc]
      | ok s => simp [handleStatusOld, ha, hc]
  · intro ha hnone
    simp [handleStatusOld, ha, GetCachedStatusOld, hnone]

/-- The same request environment with the context-name cache write forced
to succeed or fail. -/
def withStoreContextOk (env : FetchEnv) (ok : Bool) : FetchEnv :=
  { env with storeContextOk := ok }

/-- The playback stage's outcome and calls do not depend on whether the
context-name cache write succeeds (only the resulting store does). -/
theorem fetchPlay_storeContext_indep (env : FetchEnv) (ok : Bool) (kv : KV) (tok : Token) :
    (fetchPlay (withStoreContextOk env ok) kv tok).outcome = (fetchPlay env kv tok).outcome ∧
    (fetchPlay (withStoreContextOk env ok) kv tok).calls = (fetchPlay env kv tok).calls := by
  obtain ⟨auth, rr, pr, ar, plr, alr, sr, pb, sto, sco, sso⟩ := env
  cases hp : pr with
  | error e => simp [fetchPlay, withStoreContextOk, hp]
  | ok ores =>
    cases ores with
    | none => simp [fetchPlay, withStoreContextOk, hp]
    | some ps =>
      cases hplay : ps.Playing with
      | false => simp [fetchPlay, withStoreContextOk, hp, hplay]
      | true =>
        cases hid : (goSplit ps.PlaybackContext.URI ':')[2]? with
        | none => simp [fetchPlay, withStoreContextOk, hp, hplay, hid]
        | some id =>
          by_cases hc : GetContextName kv ps.PlaybackContext.ctxType id = ""
          · rcases hr : resolveName ⟨auth, rr, .ok (some ps), ar, plr, alr, sr, pb, sto, sco, sso⟩
              tok ps.PlaybackContext.ctxType ps.PlaybackContext.ExternalURL id with ⟨o, cs⟩
            have hr2 : resolveName ⟨auth, rr, .ok (some ps), ar, plr, alr, sr, pb, sto, ok, sso⟩
                tok ps.PlaybackContext.ctxType ps.PlaybackContext.ExternalURL id = (o, cs) := by
              rw [← hr]
              rfl
            cases o with
            | ok ons =>
              cases ons with
              | none => simp [fetchPlay, withStoreContextOk, hp, hplay, hid, hc, hr, hr2]
              | some name => simp [fetchPlay, withStoreContextOk, hp, hplay, hid, hc, hr, hr2]
            | err e => simp [fetchPlay, withStoreContextOk, hp, hplay, hid, hc, hr, hr2]
            | panicked => simp [fetchPlay, withStoreContextOk, hp, hplay, hid, hc, hr, hr2]
          · simp [fetchPlay, withStoreContextOk, hp, hplay, hid, hc]

/-- `fetchStatus`'s outcome and calls do not depend on whether the
context-name cache write succeeds. -/
theorem fetchStatus_storeContext_indep (env : FetchEnv) (ok : Bool) (kv : KV) (now : Int)
    (u : String) :
    (fetchStatus (withStoreContextOk env ok) kv now u).outcome = (fetchStatus env kv now u).outcome ∧
    (fetchStatus (withStoreContextOk env ok) kv now u).calls = (fetchStatus env kv now u).calls := by
  obtain ⟨auth, rr, pr, ar, plr, alr, sr, pb, sto, sco, sso⟩ := env
  cases hauth : auth with
  | false => simp [fetchStatus, withStoreContextOk, hauth]
  | true =>
    cases hg : GetToken kv u with
    | error e => simp [fetchStatus, withStoreContextOk, hauth, hg]
    | ok otok =>
      cases otok with
      | none => simp [fetchStatus, withStoreContextOk, hauth, hg]
      | some tok =>
        by_cases hnear : tok.Expiry - now < 330
        · cases href : rr with
          | error e => simp [fetchStatus, withStoreContextOk, hauth, hg, hnear, href]
          | ok oref =>
            cases oref with
            | none => simp [fetchStatus, withStoreContextOk, hauth, hg, hnear, href]
            | some t2 =>
              cases hst : sto with
              | false => simp [fetchStatus, withStoreContextOk, hauth, hg, hnear, href, hst]
              | true =>
                have hfp := fetchPlay_storeContext_indep
                  ⟨true, .ok (some t2), pr, ar, plr, alr, sr, pb, true, sco, sso⟩ ok
                  (StoreToken kv u t2) tok
                simp only [withStoreContextOk] at hfp
                simp [fetchStatus, withStoreContextOk, hauth, hg, hnear, href, hst, hfp.1, hfp.2]
        · have hfp := fetchPlay_storeContext_indep
            ⟨true, rr, pr, ar, plr, alr, sr, pb, sto, sco, sso⟩ ok kv tok
          simp only [withStoreContextOk] at hfp
          simp [fetchStatus, withStoreContextOk, hauth, hg, hnear, hfp.1, hfp.2]

/-- **C7**, amended: a failure of the context-name cache write inside the
resolver is logged only — the handler's response and upstream calls are
identical whether that write succeeds or fails. A failure of the
status-cache write, however, aborts the request with
`500 failed to cache status` instead of returning the assembled status
(see the counterexample). -/
theorem c7_cache_write_best_effort (env : FetchEnv) (kv : KV) (now : Int) (a b : String) :
    ((handleStatus (withStoreContextOk env false) kv now a b).resp =
      (handleStatus (withStoreContextOk env true) kv now a b).resp) ∧
    ((handleStatus (withStoreContextOk env false) kv now a b).calls =
      (handleStatus (withStoreContextOk env true) kv now a b).calls) ∧
    (env.storeStatusOk = false → a ≠ "" → GetCachedStatus kv a = .ok none →
      ∀ st, (fetchStatus env kv now a).outcome = .ok st →
        (handleStatus env kv now a b).resp = .httpError 500 "failed to cache status") := by
  have h0 := fetchStatus_storeContext_indep env false kv now a
  have h1 := fetchStatus_storeContext_indep env true kv now a
  simp only [withStoreContextOk] at h0 h1
  refine ⟨?_, ?_, ?_⟩
  · by_cases ha : a = ""
    · simp [handleStatus, ha]
    · cases hc : GetCachedStatus kv a with
      | error e => simp [handleStatus, ha, hc]
      | ok os =>
        cases os with
        | some s => simp [handleStatus, ha, hc]
        | none =>
          simp only [handleStatus, withStoreContextOk, ha, hc]
          rw [h0.1, h1.1]
          cases ho : (fetchStatus env kv now a).outcome with
          | panicked => simp [ho]
          | err e => simp [ho]
          | ok st =>
            simp only [ho]
            by_cases hss : env.storeStatusOk = false
            · rw [if_pos hss, if_pos hss]
              simp
            · rw [if_neg hss, if_neg hss]
              simp
  · by_cases ha : a = ""
    · simp [handleStatus, ha]
    · cases hc : GetCachedStatus kv a with
      | error e => simp [handleStatus, ha, hc]
      | ok os =>
        cases os with
        | some s => simp [handleStatus, ha, hc]
        | none =>
          simp only [handleStatus, withStoreContextOk, ha, hc]
          rw [h0.1, h1.1]
          cases ho : (fetchStatus env kv now a).outcome with
          | panicked => simp [ho, h0.2, h1.2]
          | err e => simp [ho, h0.2, h1.2]
          | ok st =>
            simp only [ho]
            by_cases hss : env.storeStatusOk = false
            · rw [if_pos hss, if_pos hss]
              simpa using h0.2.trans h1.2.symm
            · rw [if_neg hss, if_neg hss]
              simpa using h0.2.trans h1.2.symm
  · intro hS ha hc st hst
    simp only [handleStatus, ha, hc, hst]
    simp [hS]

/-- A request environment where the user plays a playlist whose metadata
call succeeds with the name "Focus Mix"; the token is valid and all cache
writes succeed. -/
def envPlaying : FetchEnv :=
  { authConfigured := true
    refreshResult := .error "unexpected refresh"
    playerResult := .ok (some ⟨true,
      ⟨"spotify:playlist:abc123", "playlist", "https://open.spotify.com/playlist/abc123"⟩⟩)
    artistResult := .error "unexpected"
    playlistResult := .ok (some "Focus Mix")
    albumResult := .error "unexpected"
    showResult := .error "unexpected"
    pageBody := none
    storeTokenOk := true
    storeContextOk := true
    storeStatusOk := true }

/-- Witness for C1: concrete reads through both endpoints. -/
theorem c1_requester_identity_only_witness :
    GetToken [("token-userA", .tok ⟨"acc", "ref", 1000000⟩)] "userA" =
      .ok (some ⟨"acc", "ref", 1000000⟩) ∧
    (handleStatusOld [] "userA" "userB").resp = .httpError 404 "no status available" := by
  have h := c1_requester_identity_only envPlaying
    [("token-userA", .tok ⟨"acc", "ref", 1000000⟩)] 0 "userA" "userB" "userC"
  have h2 := c1_requester_identity_only envPlaying [] 0 "userA" "userB" "userC"
  constructor
  · exact h.2.1 ⟨"acc", "ref", 1000000⟩ (by decide)
  · exact h2.2.2.2 (by decide) (by decide)

/-- **C1**, counterexample: in the fetch-and-cache `handleStatus`, a
request by `userA` for `userB`'s status that finds nothing cached does
*not* report "no status available": it performs upstream calls (with the
requester's own token) and returns the requester's freshly resolved
status with a 200. -/
theorem c1_counterexample :
    (handleStatus envPlaying [("token-userA", .tok ⟨"acc", "ref", 1000000⟩)]
      0 "userA" "userB").resp =
      .ok (some { IsConnected := true, IsPlaying := true, PlaybackType := "Playlist",
                  PlaybackURL := "https://open.spotify.com/playlist/abc123",
                  PlaybackName := "Focus Mix" }) ∧
    (handleStatus envPlaying [("token-userA", .tok ⟨"acc", "ref", 1000000⟩)]
      0 "userA" "userB").calls ≠ [] := by
  exact ⟨by decide, by decide⟩

/-- Witness for C7: with a playing resolution, forcing the context-name
write to fail leaves the response unchanged, while a failing status-cache
write yields the 500. -/
theorem c7_cache_write_best_effort_witness :
    (handleStatus (withStoreContextOk { envPlaying with storeStatusOk := false } false)
      [("token-u1", .tok ⟨"acc", "ref", 1000000⟩)] 0 "u1" "u2").resp =
      (handleStatus (withStoreContextOk { envPlaying with storeStatusOk := false } true)
        [("token-u1", .tok ⟨"acc", "ref", 1000000⟩)] 0 "u1" "u2").resp ∧
    (handleStatus { envPlaying with storeStatusOk := false }
      [("token-u1", .tok ⟨"acc", "ref", 1000000⟩)] 0 "u1" "u2").resp =
      .httpError 500 "failed to cache status" := by
  have h := c7_cache_write_best_effort { envPlaying with storeStatusOk := false }
    [("token-u1", .tok ⟨"acc", "ref", 1000000⟩)] 0 "u1" "u2"
  refine ⟨h.1, h.2.2 (by decide) (by decide) (by decide)
    (some { IsConnected := true, IsPlaying := true, PlaybackType := "Playlist",
            PlaybackURL := "https://open.spotify.com/playlist/abc123",
            PlaybackName := "Focus Mix" }) (by decide)⟩

/-- **C7**, counterexample: a resolution that successfully assembles a
status is *not* returned to the caller when the status-cache write fails —
the handler aborts with `500 failed to cache status`. -/
theorem c7_counterexample :
    (fetchStatus { envPlaying with storeStatusOk := false }
      [("token-u1", .tok ⟨"acc", "ref", 1000000⟩)] 0 "u1").outcome =
      .ok (some { IsConnected := true, IsPlaying := true, PlaybackType := "Playlist",
                  PlaybackURL := "https://open.spotify.com/playlist/abc123",
                  PlaybackName := "Focus Mix" }) ∧
    (handleStatus { envPlaying with storeStatusOk := false }
      [("token-u1", .tok ⟨"acc", "ref", 1000000⟩)] 0 "u1" "u2").resp =
      .httpError 500 "failed to cache status" := by
  exact ⟨by decide, by decide⟩

/-- **C8**: when the playlist metadata call fails with exactly
"Resource not found" and the context has a non-empty public URL, the
resolver fetches that URL and uses `extractTitleName` — the text between
the first `<title>` and `</title>` markers with the trailing
`" | Spotify Playlist"` suffix stripped — as the context name; on the
page `<title>Chill Vibes | Spotify Playlist</title>` that name is
"Chill Vibes". -/
theorem c8_playlist_title_fallback (env : FetchEnv) (kv : KV) (now : Int) (u : String)
    (t : Token) (ps : PlayerState) (id page : String)
    (hauth : env.authConfigured = true)
    (htok : GetToken kv u = .ok (some t))
    (hfar : ¬ (t.Expiry - now < 330))
    (hps : env.playerResult = .ok (some ps))
    (hplay : ps.Playing = true)
    (hty : ps.PlaybackContext.ctxType = "playlist")
    (hid : (goSplit ps.PlaybackContext.URI ':')[2]? = some id)
    (hcache : GetContextName kv "playlist" id = "")
    (hmeta : env.playlistResult = .error "Resource not found")
    (hurl : ps.PlaybackContext.ExternalURL ≠ "")
    (hpage : env.pageBody = some page) :
    (fetchStatus env kv now u).outcome =
      .ok (some { IsConnected := true, IsPlaying := true, PlaybackType := "Playlist",
                  PlaybackURL := ps.PlaybackContext.ExternalURL,
                  PlaybackName := extractTitleName page }) ∧
    UpstreamCall.pageFetch ps.PlaybackContext.ExternalURL ∈ (fetchStatus env kv now u).calls ∧
    extractTitleName "<title>Chill Vibes | Spotify Playlist</title>" = "Chill Vibes" := by
  have hcap : capitalizeGo "playlist" = "Playlist" := by decide
  have hres : resolveName env t "playlist" ps.PlaybackContext.ExternalURL id =
      (.ok (some (extractTitleName page)),
        [.playlistMeta t id, .pageFetch ps.PlaybackContext.ExternalURL]) := by
    simp [resolveName, hmeta, hurl, hpage]
  have hfetch : fetchStatus env kv now u = fetchPlay env kv t := by
    simp only [fetchStatus, hauth, htok]
    rw [if_neg hfar]
    simp
  refine ⟨?_, ?_, by decide⟩
  · rw [hfetch]
    simp [fetchPlay, hps, hplay, hid, hty, hcache, hres, assembleStatus, hcap]
  · rw [hfetch]
    simp [fetchPlay, hps, hplay, hid, hty, hcache, hres]

/-- The playing-playlist environment whose metadata call fails with
"Resource not found" and whose public page carries the Chill Vibes title. -/
def envChill : FetchEnv :=
  { envPlaying with
    playlistResult := .error "Resource not found"
    pageBody := some "<html><head><title>Chill Vibes | Spotify Playlist</title></head></html>" }

/-- Witness for C8: the concrete Chill Vibes scenario end to end. -/
theorem c8_playlist_title_fallback_witness :
    (fetchStatus envChill [("token-u1", .tok ⟨"acc", "ref", 1000000⟩)] 0 "u1").outcome =
      .ok (some { IsConnected := true, IsPlaying := true, PlaybackType := "Playlist",
                  PlaybackURL := "https://open.spotify.com/playlist/abc123",
                  PlaybackName := "Chill Vibes" }) ∧
    UpstreamCall.pageFetch "https://open.spotify.com/playlist/abc123" ∈
      (fetchStatus envChill [("token-u1", .tok ⟨"acc", "ref", 1000000⟩)] 0 "u1").calls := by
  have h := c8_playlist_title_fallback envChill
    [("token-u1", .tok ⟨"acc", "ref", 1000000⟩)] 0 "u1" ⟨"acc", "ref", 1000000⟩
    ⟨true, ⟨"spotify:playlist:abc123", "playlist", "https://open.spotify.com/playlist/abc123"⟩⟩
    "abc123" "<html><head><title>Chill Vibes | Spotify Playlist</title></head></html>"
    (by decide) (by decide) (by decide) (by decide) (by decide) (by decide)
    (by decide) (by decide) (by decide) (by decide) (by decide)
  constructor
  · rw [h.1]
    decide
  · exact h.2.1

end SpotifyPlugin
